import Mathlib

/-!
# FileNest: the upload route of `ServerFastify/MinIO/upload.js`

A shallow embedding of the two functions of the file:

* `formatBytes` (lines 8-15), the size rendering;
* the `POST /upload` handler (lines 19-166), as a function from a request and a
  `World` (the answers of the external collaborators) to the reply that is sent,
  the final values of the two success flags and the trace of external calls.

Conventions of the embedding.

* JavaScript strings are Lean strings. The only characters the handler looks at
  are `'.'` (a single UTF-16 unit), so positions counted in UTF-16 units or in
  code points cut a string at the same places.
* Byte counts are natural numbers. `Math.floor(Math.log(bytes) / Math.log(k))` is
  the exact integer logarithm `floorLog`, and `Math.ceil(bytes / Math.pow(k, i))`
  is the exact ceiling `ceilDiv` (the quotient by a power of two is exact in
  double precision for every size below `2 ^ 53`). The double-precision
  logarithm agrees with `floorLog` on the sizes the statements below speak of
  (all sizes up to `1024 ^ 3`, and 1 500 000 000); just below a large power of
  1024 (for instance at `2 ^ 50 - 1`) the rounded quotient of logarithms can reach
  the next integer, and no statement is made there.
* An `await` on a collaborator either throws (`Except.error message`) or returns
  (`Except.ok value`). Every collaborator is asked at most once per request, so a
  function of the arguments describes any behaviour it can show during one run.
* A `throw` inside the `try` block is `Completion.threw`; the `catch` block turns
  it into the 500 reply.
* The plugin options supply `stream`, so `new stream.PassThrough()` (line 68)
  and `uploadStream.end(fileBuffer)` (line 83) do not throw.
-/

namespace FileNest

/-! ## `formatBytes` (lines 8-15) -/

/-- Integer logarithm by repeated division: `fuel` bounds the number of divisions. -/
def floorLogAux (k : Nat) : Nat → Nat → Nat
  | 0, _ => 0
  | fuel + 1, n => if k ≤ n ∧ 1 < k then floorLogAux k fuel (n / k) + 1 else 0

/-- The exact value of `floor(log n / log k)` for `n ≥ 1`, `k ≥ 2`: the largest
`i` with `k ^ i ≤ n`. Line 12 computes it in double precision, which gives the
same index for every `n ≤ 1024 ^ 3` and for 1 500 000 000. -/
def floorLog (k n : Nat) : Nat := floorLogAux k n n

/-- The value of `Math.ceil(a / b)` for `b > 0`. -/
def ceilDiv (a b : Nat) : Nat := if a % b = 0 then a / b else a / b + 1

/-- The unit table of line 11. -/
def sizes : List String := ["Bytes", "KB", "MB"]

/-- String concatenation with `sizes[i]`: an index outside the table reads
`undefined`, which `+` renders as the text `undefined`. -/
def sizesAt (i : Nat) : String := (sizes.get? i).getD "undefined"

/-- Lines 8-15. -/
def formatBytes (bytes : Nat) : String :=
  if bytes = 0 then "0 Bytes"
  else
    let k := 1024
    let i := floorLog k bytes
    let size := ceilDiv bytes (k ^ i)
    toString size ++ " " ++ sizesAt i

/-! ## Filename splitting (lines 94-97) -/

/-- Left-to-right scan keeping the last position at which `c` was seen. -/
def lastIndexOfAux (c : Char) : List Char → Nat → Int → Int
  | [], _, found => found
  | x :: xs, i, found => lastIndexOfAux c xs (i + 1) (if x = c then (i : Int) else found)

/-- The method `String.prototype.lastIndexOf` for a one-character needle: the
index of the last occurrence, `-1` when there is none. -/
def lastIndexOf (s : String) (c : Char) : Int := lastIndexOfAux c s.data 0 (-1)

/-- The call `s.substring(start, stop)` with `start ≤ stop`. -/
def substring (s : String) (start stop : Nat) : String :=
  ⟨(s.data.take stop).drop start⟩

/-- The call `s.substring(start)`. -/
def substringFrom (s : String) (start : Nat) : String := ⟨s.data.drop start⟩

/-- Line 96: `name`. -/
def metadataName (fileName : String) : String :=
  let lastDotIndex := lastIndexOf fileName '.'
  if lastDotIndex ≠ -1 then substring fileName 0 lastDotIndex.toNat else fileName

/-- Line 97: `extension`. -/
def metadataExtension (fileName : String) : String :=
  let lastDotIndex := lastIndexOf fileName '.'
  if lastDotIndex ≠ -1 then substringFrom fileName (lastDotIndex + 1).toNat else ""

/-! ## Data of the handler -/

/-- The values the object store can hand to the `putObject` callback, as far as
the handler inspects them: it reads the property `etag` of the value. A string
(or any other primitive) has no such property; an object is represented by the
value of its `etag` property. -/
inductive JSValue
  | undefined
  | null
  | string (s : String)
  | object (etag : JSValue)
  deriving DecidableEq, Repr

/-- The member access `v.etag`: a `TypeError` on `undefined` and `null`,
`undefined` on a primitive. -/
def JSValue.getEtag : JSValue → Except String JSValue
  | .undefined => .error "Cannot read properties of undefined (reading 'etag')"
  | .null => .error "Cannot read properties of null (reading 'etag')"
  | .string _ => .ok .undefined
  | .object e => .ok e

/-- A Node `Buffer`, as far as the handler reads it: its `length`. The bytes are
handed to the object store unchanged and are not inspected. -/
structure Buffer where
  length : Nat
  deriving DecidableEq, Repr

/-- The first entry of `request.body.file`. -/
structure FilePart where
  data : Option Buffer
  filename : Option String
  mimetype : Option String
  deriving DecidableEq, Repr

/-- What `JSON.parse(request.body.user)` does: it throws, returns `null`, or
returns a value whose `username` / `password` properties are read. A property is
`some s` when it is the string `s` and `none` otherwise. -/
inductive UserField
  | unparsable
  | null
  | value (username password : Option String)
  deriving DecidableEq, Repr

structure Body where
  file : Option (List FilePart)
  user : UserField
  deriving DecidableEq, Repr

structure Request where
  body : Option Body
  deriving DecidableEq, Repr

/-- The object built at lines 95-103. -/
structure Metadata where
  name : String
  extension : String
  type : Option String
  trueSize : Nat
  formatedSize : String
  lastModified : String
  owner : Option String
  deriving DecidableEq, Repr

/-- The body posted to `/addFile` (lines 119-127). -/
structure FileRecord where
  etag : JSValue
  name : String
  file_type : String
  size : Nat
  last_modify : String
  owner_id : Option Nat
  minIOServer : String
  deriving DecidableEq, Repr

/-- An axios response, as far as the handler reads it. -/
structure HttpResponse where
  status : Nat
  error : Option String
  deriving DecidableEq, Repr

/-- The response of `/getAccountIdByUsername`: `data` is `none` when the response
has no body object, else the `account_id` found in it (if any). -/
structure AccountResponse where
  data : Option (Option Nat)
  deriving DecidableEq, Repr

/-- The external calls. `removeObject` is the object store's delete: no line of
the handler issues it; it is listed so that its absence can be stated. -/
inductive Call
  | authUser (username password : Option String)
  | bucketExists (bucketName : String)
  | makeBucket (bucketName : String)
  | putObject (bucketName : String) (fileName : Option String) (fileSize : Nat)
  | removeObject (bucketName : String) (fileName : Option String)
  | getAccountIdByUsername (username : String)
  | addFile (record : FileRecord)
  deriving DecidableEq, Repr

inductive CallKind
  | authUser | bucketExists | makeBucket | putObject | removeObject
  | getAccountIdByUsername | addFile
  deriving DecidableEq, Repr

def Call.kind : Call → CallKind
  | .authUser _ _ => .authUser
  | .bucketExists _ => .bucketExists
  | .makeBucket _ => .makeBucket
  | .putObject _ _ _ => .putObject
  | .removeObject _ _ => .removeObject
  | .getAccountIdByUsername _ => .getAccountIdByUsername
  | .addFile _ => .addFile

/-- The collaborators and the environment of one run: the connection parameters
of `minioClient` (module `./MinIOClient`), the clock, the built-in
`String.prototype.toLowerCase`, and the answer of each external service. -/
structure World where
  protocol : String
  host : String
  port : String
  now : String
  toLowerCase : String → String
  authUser : Option String → Option String → Except String HttpResponse
  bucketExists : String → Except String Bool
  makeBucket : String → Except String Unit
  putObject : String → Option String → Buffer → Nat → Except String JSValue
  getAccountIdByUsername : String → Except String AccountResponse
  addFile : FileRecord → Except String HttpResponse

/-- The statement of the handler that sent the reply. -/
inductive ReplySite
  | authRejected
  | insertRejected
  | completed
  | rollbackBranch
  | caught
  deriving DecidableEq, Repr

/-- The reply: status code and the fields of the JSON body. -/
structure Outcome where
  site : ReplySite
  code : Nat
  success : Bool
  message : Option String
  error : Option String
  etag : Option JSValue
  metadata : Option Metadata
  deriving DecidableEq, Repr

/-- The mutable variables of the handler (lines 20-21) and the calls made so far. -/
structure HandlerState where
  databaseInsertSuccess : Bool
  uploadSuccess : Bool
  trace : List Call
  deriving DecidableEq, Repr

def HandlerState.call (st : HandlerState) (c : Call) : HandlerState :=
  { st with trace := st.trace ++ [c] }

/-- How the `try` block ends: with a reply, or with a thrown error. -/
inductive Completion
  | replied (o : Outcome)
  | threw (message : String)
  deriving DecidableEq, Repr

/-- The expression `x || fallback` on an optional string: the empty string is
falsy. -/
def orElse (x : Option String) (fallback : String) : String :=
  match x with
  | some s => if s = "" then fallback else s
  | none => fallback

/-- The expression `user.username || null` of line 102. -/
def orNull (s : String) : Option String := if s = "" then none else some s

/-- A template-literal slot holding `fileName`. -/
def render (fileName : Option String) : String := fileName.getD "undefined"

/-! ## The handler (lines 19-166) -/

/-- Lines 142-158: the final check of the two flags. -/
def checkSuccessfulExecution (st : HandlerState) (etag : JSValue) (metadata : Metadata) :
    HandlerState × Completion :=
  if st.databaseInsertSuccess && st.uploadSuccess then
    (st, .replied
      { site := .completed, code := 200, success := true, message := none, error := none,
        etag := some etag, metadata := some metadata })
  else
    (st, .replied
      { site := .rollbackBranch, code := 500, success := false, message := none,
        error := some "Error uploading the file and/or metadata", etag := none,
        metadata := none })

/-- Lines 106-139: resolve the account, post the record. -/
def insertMetadata (w : World) (st : HandlerState) (username : String) (etag : JSValue)
    (metadata : Metadata) (serverUrl : String) : HandlerState × Completion :=
  let st := st.call (.getAccountIdByUsername username)
  match w.getAccountIdByUsername username with
  | .error e => (st, .threw e)
  | .ok accountResponse =>
    match accountResponse.data with
    | none => (st, .threw "Cannot read properties of undefined (reading 'account_id')")
    | some owner_id =>
      match etag.getEtag with
      | .error e => (st, .threw e)
      | .ok tag =>
        let record : FileRecord :=
          { etag := tag, name := metadata.name, file_type := metadata.extension,
            size := metadata.trueSize, last_modify := metadata.lastModified,
            owner_id := owner_id, minIOServer := serverUrl }
        let st := st.call (.addFile record)
        match w.addFile record with
        | .error e => (st, .threw e)
        | .ok insertResponse =>
          if insertResponse.status ≠ 200 then
            (st, .replied
              { site := .insertRejected, code := insertResponse.status, success := false,
                message := some (orElse insertResponse.error
                  "Error inserting metadata into the database"),
                error := none, etag := none, metadata := none })
          else
            let st := { st with databaseInsertSuccess := true }
            checkSuccessfulExecution st etag metadata

/-- Lines 88-103: await the write, build the URL and the metadata object. -/
def createMetadata (w : World) (st : HandlerState) (username bucketName : String)
    (data : FilePart) (fileSize : Nat) (uploadPromise : Except String JSValue) :
    HandlerState × Completion :=
  match uploadPromise with
  | .error e => (st, .threw e)
  | .ok etag =>
    let serverUrl :=
      w.protocol ++ "//" ++ w.host ++ ":" ++ w.port ++ "/" ++ bucketName ++ "/" ++
        render data.filename
    match data.filename with
    | none => (st, .threw "Cannot read properties of undefined (reading 'lastIndexOf')")
    | some fileName =>
      let metadata : Metadata :=
        { name := metadataName fileName, extension := metadataExtension fileName,
          type := data.mimetype, trueSize := fileSize, formatedSize := formatBytes fileSize,
          lastModified := w.now, owner := orNull username }
      insertMetadata w st username etag metadata serverUrl

/-- Lines 62-85: the size check, the `putObject` call, `uploadSuccess = true`. -/
def putFile (w : World) (st : HandlerState) (username bucketName : String) (data : FilePart) :
    HandlerState × Completion :=
  match data.data with
  | none => (st, .threw "File size is missing or malformed")
  | some fileBuffer =>
    let fileSize := fileBuffer.length
    if fileSize = 0 then (st, .threw "File size is missing or malformed")
    else
      let st := st.call (.putObject bucketName data.filename fileSize)
      let uploadPromise := w.putObject bucketName data.filename fileBuffer fileSize
      let st := { st with uploadSuccess := true }
      createMetadata w st username bucketName data fileSize uploadPromise

/-- Lines 54-60: the bucket name, `bucketExists`, `makeBucket` when it is absent. -/
def ensureBucket (w : World) (st : HandlerState) (username : Option String) (data : FilePart) :
    HandlerState × Completion :=
  match username with
  | none => (st, .threw "Cannot read properties of undefined (reading 'toLowerCase')")
  | some username =>
    let bucketName := w.toLowerCase username
    let st := st.call (.bucketExists bucketName)
    match w.bucketExists bucketName with
    | .error e => (st, .threw e)
    | .ok true => putFile w st username bucketName data
    | .ok false =>
      let st := st.call (.makeBucket bucketName)
      match w.makeBucket bucketName with
      | .error e => (st, .threw e)
      | .ok _ => putFile w st username bucketName data

/-- Lines 32-48: the authentication call and the check of its status. -/
def authenticate (w : World) (st : HandlerState) (user : UserField) (data : FilePart) :
    HandlerState × Completion :=
  match user with
  | .unparsable => (st, .threw "Unexpected token in JSON")
  | .null => (st, .threw "Cannot read properties of null (reading 'username')")
  | .value username password =>
    let st := st.call (.authUser username password)
    match w.authUser username password with
    | .error e => (st, .threw e)
    | .ok authResponse =>
      if authResponse.status ≠ 200 then
        (st, .replied
          { site := .authRejected, code := authResponse.status, success := false,
            message := some (orElse authResponse.error "Login failed"), error := none,
            etag := none, metadata := none })
      else ensureBucket w st username data

/-- The expression `request.body.file?.[0]` of line 23. -/
def firstFile (body : Body) : Option FilePart := body.file.bind List.head?

/-- Lines 23-158, the `try` block. -/
def tryBlock (w : World) (st : HandlerState) (request : Request) : HandlerState × Completion :=
  match request.body with
  | none => (st, .threw "Cannot read properties of undefined (reading 'file')")
  | some body =>
    let data := firstFile body
    match body.user with
    | .unparsable => (st, .threw "Unexpected token in JSON")
    | user =>
      match data with
      | none => (st, .threw "File data is missing or malformed")
      | some data => authenticate w st user data

/-- One run of the handler: the reply, the flags at the end, the calls made. -/
structure Run where
  outcome : Outcome
  final : HandlerState
  deriving DecidableEq, Repr

/-- Lines 160-165, the `catch` block: a thrown error becomes the 500 reply carrying
its message; a reply sent by the `try` block stands. -/
def catchBlock : HandlerState × Completion → Run
  | (st, .replied o) => { outcome := o, final := st }
  | (st, .threw message) =>
    { outcome :=
        { site := .caught, code := 500, success := false, message := none,
          error := some message, etag := none, metadata := none },
      final := st }

/-- Lines 19-166: both flags start `false` and no call has been made. -/
def upload (w : World) (request : Request) : Run :=
  catchBlock
    (tryBlock w { databaseInsertSuccess := false, uploadSuccess := false, trace := [] } request)

/-- The external calls of a run, in the order they were made. -/
def Run.trace (r : Run) : List Call := r.final.trace

/-! ## Vocabulary for the statements -/

/-- The file entry the handler works on, if the request has one. -/
def Request.fileData (request : Request) : Option FilePart := request.body.bind firstFile

/-- A call to the object store. -/
def Call.isObjectStore (c : Call) : Bool :=
  c.kind == .bucketExists || c.kind == .makeBucket || c.kind == .putObject ||
    c.kind == .removeObject

/-- A call to the account directory or the metadata registry. -/
def Call.isRegistry (c : Call) : Bool :=
  c.kind == .getAccountIdByUsername || c.kind == .addFile

/-- The authentication stage fails: the request carries credentials and the
service throws on them or answers with a status other than 200. -/
def authFails (w : World) (request : Request) : Bool :=
  match request.body with
  | none => false
  | some body =>
    match body.user with
    | .value username password =>
      match w.authUser username password with
      | .error _ => true
      | .ok authResponse => authResponse.status != 200
    | _ => false

/-- The credentials of a request: present when `JSON.parse` returns a value
other than `null`. -/
def Request.credentials (request : Request) : Option (Option String × Option String) :=
  match request.body with
  | none => none
  | some body =>
    match body.user with
    | .value username password => some (username, password)
    | _ => none

/-- The payload of a file entry is absent or has zero bytes. -/
def FilePart.payloadEmpty (part : FilePart) : Bool :=
  match part.data with
  | none => true
  | some buffer => buffer.length == 0

/-- The number of authentication calls in a trace. -/
def authCalls (trace : List Call) : Nat := trace.countP (fun c => c.kind == .authUser)

/-- The `etag` fields of the records posted to the registry. -/
def recordEtags (trace : List Call) : List JSValue :=
  trace.filterMap fun c =>
    match c with
    | .addFile record => some record.etag
    | _ => none

/-- The order of the stages when the bucket has to be created. -/
def sequenceWithCreate : List CallKind :=
  [.authUser, .bucketExists, .makeBucket, .putObject, .getAccountIdByUsername, .addFile]

/-- The order of the stages when the bucket exists. -/
def sequenceWithoutCreate : List CallKind :=
  [.authUser, .bucketExists, .putObject, .getAccountIdByUsername, .addFile]

/-! ## Concrete worlds and requests -/

/-- Every collaborator answers favourably: the scenario of a user whose bucket
exists, with the store returning the value `tag`. -/
def happyWorld (tag : JSValue) : World where
  protocol := "http:"
  host := "minio"
  port := "9000"
  now := "2024-05-01T12:00:00.000Z"
  toLowerCase := fun s => ⟨s.data.map Char.toLower⟩
  authUser := fun _ _ => .ok { status := 200, error := none }
  bucketExists := fun _ => .ok true
  makeBucket := fun _ => .ok ()
  putObject := fun _ _ _ _ => .ok tag
  getAccountIdByUsername := fun _ => .ok { data := some (some 42) }
  addFile := fun _ => .ok { status := 200, error := none }

/-- The authentication service rejects: axios throws on the 401 answer. -/
def rejectingWorld : World :=
  { happyWorld (.object (.string "abc123")) with
    authUser := fun _ _ => .error "Request failed with status code 401" }

/-- The registry is down: the insert throws. The bucket does not exist yet. -/
def registryDownWorld : World :=
  { happyWorld (.object (.string "abc123")) with
    bucketExists := fun _ => .ok false
    addFile := fun _ => .error "Request failed with status code 500" }

/-- The object store fails the write. -/
def storeDownWorld : World :=
  { happyWorld (.object (.string "abc123")) with
    putObject := fun _ _ _ _ => .error "connect ECONNREFUSED" }

/-- A request carrying one file part and the given `user` field. -/
def requestWith (user : UserField) (part : FilePart) : Request :=
  { body := some { file := some [part], user := user } }

/-- A request carrying one file part and the credentials of `Alice`. -/
def requestOf (part : FilePart) : Request :=
  requestWith (.value (some "Alice") (some "secret")) part

/-- The file `photo.png` of 2048 bytes. -/
def photo : FilePart :=
  { data := some { length := 2048 }, filename := some "photo.png",
    mimetype := some "image/png" }

/-- A file part of zero bytes. -/
def emptyFile : FilePart :=
  { data := some { length := 0 }, filename := some "empty.txt", mimetype := some "text/plain" }

/-- A file part without a filename. -/
def namelessFile : FilePart :=
  { data := some { length := 5 }, filename := none, mimetype := none }

/-- The file `report.pdf` of 1536 bytes. -/
def report : FilePart :=
  { data := some { length := 1536 }, filename := some "report.pdf",
    mimetype := some "application/pdf" }

/-- The file `README` of 1023 bytes. -/
def readme : FilePart :=
  { data := some { length := 1023 }, filename := some "README", mimetype := none }

/-- A request with credentials but no file entry. -/
def requestWithoutFile : Request :=
  { body := some { file := none, user := .value (some "Alice") (some "secret") } }

/-- Every collaborator answers favourably and the user has no bucket yet. -/
def newUserWorld : World :=
  { happyWorld (.object (.string "abc123")) with bucketExists := fun _ => .ok false }

/-- The name and extension of a metadata object or a registry record, side by side. -/
def nameAndExtension (name extension : String) : String × String := (name, extension)

/-! ## Facts about `formatBytes` -/

theorem floorLogAux_eq_log (k : Nat) : ∀ fuel n, n ≤ fuel → floorLogAux k fuel n = Nat.log k n := by
  intro fuel
  induction fuel with
  | zero =>
    intro n hn
    have h0 : n = 0 := by omega
    subst h0
    simp [floorLogAux]
  | succ fuel ih =>
    intro n hn
    unfold floorLogAux
    by_cases h : k ≤ n ∧ 1 < k
    · rw [if_pos h, Nat.log_of_one_lt_of_le h.2 h.1]
      have hlt : n / k < n := Nat.div_lt_self (by omega) h.2
      rw [ih (n / k) (by omega)]
    · rw [if_neg h]
      symm
      rw [Nat.log_eq_zero_iff]
      omega

theorem floorLog_eq_log (k n : Nat) : floorLog k n = Nat.log k n :=
  floorLogAux_eq_log k n n le_rfl

theorem pow_floorLog_le (n : Nat) (h : 1 ≤ n) : 1024 ^ floorLog 1024 n ≤ n := by
  rw [floorLog_eq_log]
  exact Nat.pow_log_le_self 1024 (by omega)

theorem lt_pow_floorLog_succ (n : Nat) : n < 1024 ^ (floorLog 1024 n + 1) := by
  rw [floorLog_eq_log]
  exact Nat.lt_pow_succ_log_self (by norm_num) n

theorem floorLog_lt_three (n : Nat) (h : n < 1024 ^ 3) : floorLog 1024 n < 3 := by
  rw [floorLog_eq_log]
  rcases Nat.eq_zero_or_pos n with h0 | h0
  · subst h0
    simp
  · exact Nat.log_lt_of_lt_pow (by omega) h

theorem ceilDiv_bounds (a b : Nat) (hb : 0 < b) (ha : 0 < a) :
    (ceilDiv a b - 1) * b < a ∧ a ≤ ceilDiv a b * b := by
  unfold ceilDiv
  have h1 := Nat.div_add_mod a b
  have h2 := Nat.mod_lt a hb
  by_cases h : a % b = 0
  · rw [if_pos h]
    have h3 : b * (a / b) = a := by omega
    have h4 : 0 < a / b := by
      rcases Nat.eq_zero_or_pos (a / b) with h5 | h5
      · rw [h5] at h3; omega
      · exact h5
    constructor
    · have : (a / b - 1) * b + b = a / b * b := by
        rw [← Nat.succ_mul]; congr 1; omega
      rw [Nat.mul_comm] at h3
      omega
    · rw [Nat.mul_comm]; omega
  · rw [if_neg h]
    constructor
    · simp only [Nat.add_sub_cancel]
      rw [Nat.mul_comm]; omega
    · rw [Nat.add_mul, Nat.mul_comm]; omega

/-- C1: `formatBytes(0)` is `"0 Bytes"`; for `1 ≤ n < 1024 ^ 3` the result is the
decimal rendering of `q = ceil(n / 1024 ^ i)`, a space and the `i`-th unit of the
table, where `i` is the largest exponent with `1024 ^ i ≤ n`; and the four sample
values of the specification. -/
theorem formatBytes_rendering :
    formatBytes 0 = "0 Bytes" ∧
    (∀ n : Nat, 1 ≤ n → n < 1024 ^ 3 →
      ∃ i q : Nat, ∃ unit : String,
        1024 ^ i ≤ n ∧ (∀ j : Nat, 1024 ^ j ≤ n → j ≤ i) ∧
        (q - 1) * 1024 ^ i < n ∧ n ≤ q * 1024 ^ i ∧
        ["Bytes", "KB", "MB"].get? i = some unit ∧
        formatBytes n = toString q ++ " " ++ unit) ∧
    formatBytes 1023 = "1023 Bytes" ∧ formatBytes 1024 = "1 KB" ∧
    formatBytes 1536 = "2 KB" ∧ formatBytes 1048576 = "1 MB" := by
  refine ⟨by decide, ?_, by decide, by decide, by decide, by decide⟩
  intro n h1 h2
  have hi := floorLog_lt_three n h2
  have hpos : 0 < 1024 ^ floorLog 1024 n := pow_pos (by norm_num) _
  have hc := ceilDiv_bounds n (1024 ^ floorLog 1024 n) hpos (by omega)
  refine ⟨floorLog 1024 n, ceilDiv n (1024 ^ floorLog 1024 n), sizesAt (floorLog 1024 n),
    pow_floorLog_le n h1, ?_, hc.1, hc.2, ?_, ?_⟩
  · intro j hj
    have hlt := lt_pow_floorLog_succ n
    have : 1024 ^ j < 1024 ^ (floorLog 1024 n + 1) := lt_of_le_of_lt hj hlt
    have := (Nat.pow_lt_pow_iff_right (by norm_num : 1 < 1024)).1 this
    omega
  · have h3 : floorLog 1024 n = 0 ∨ floorLog 1024 n = 1 ∨ floorLog 1024 n = 2 := by omega
    rcases h3 with h3 | h3 | h3 <;> rw [h3] <;> decide
  · unfold formatBytes
    rw [if_neg (by omega)]

/-- The rendering rule at the size 1536: exponent 1, quotient 2, unit `KB`. -/
theorem formatBytes_rendering_witness :
    ∃ i q : Nat, ∃ unit : String,
      1024 ^ i ≤ 1536 ∧ (∀ j : Nat, 1024 ^ j ≤ 1536 → j ≤ i) ∧
      (q - 1) * 1024 ^ i < 1536 ∧ 1536 ≤ q * 1024 ^ i ∧
      ["Bytes", "KB", "MB"].get? i = some unit ∧
      formatBytes 1536 = toString q ++ " " ++ unit :=
  formatBytes_rendering.2.1 1536 (by decide) (by decide)

/-- C8, evaluated at a file of 1 500 000 000 bytes (about 1.4 GiB): the unit index
is 3, outside the table `[Bytes, KB, MB]`, and the rendering is `2 undefined`. -/
theorem formatBytes_unit_outside_table :
    floorLog 1024 1500000000 = 3 ∧ sizes.get? 3 = none ∧
    formatBytes 1500000000 = "2 undefined" := by
  decide

/-! ## Facts about the filename splitting -/

theorem lastIndexOfAux_of_not_mem (c : Char) :
    ∀ (l : List Char) (i : Nat) (found : Int), c ∉ l → lastIndexOfAux c l i found = found := by
  intro l
  induction l with
  | nil => intro i found _; rfl
  | cons x xs ih =>
    intro i found h
    have hx : ¬ x = c := fun e => h (by simp [e])
    have hxs : c ∉ xs := fun e => h (List.mem_cons_of_mem _ e)
    unfold lastIndexOfAux
    rw [if_neg hx]
    exact ih (i + 1) found hxs

theorem lastIndexOfAux_of_mem (c : Char) :
    ∀ (l : List Char) (i : Nat) (found : Int), c ∈ l →
      ∃ pre post : List Char, l = pre ++ c :: post ∧ c ∉ post ∧
        lastIndexOfAux c l i found = ((i + pre.length : Nat) : Int) := by
  intro l
  induction l with
  | nil => intro i found h; simp at h
  | cons x xs ih =>
    intro i found h
    unfold lastIndexOfAux
    by_cases hxs : c ∈ xs
    · obtain ⟨pre, post, h1, h2, h3⟩ := ih (i + 1) (if x = c then (i : Int) else found) hxs
      refine ⟨x :: pre, post, by rw [h1]; rfl, h2, ?_⟩
      rw [h3, List.length_cons]
      congr 1
      omega
    · have hx : x = c := by
        rcases List.mem_cons.1 h with e | e
        · exact e.symm
        · exact absurd e hxs
      refine ⟨[], xs, by rw [hx]; rfl, hxs, ?_⟩
      rw [lastIndexOfAux_of_not_mem c xs (i + 1) _ hxs, if_pos hx]
      simp

theorem split_of_no_dot (fileName : String) (h : '.' ∉ fileName.data) :
    metadataName fileName = fileName ∧ metadataExtension fileName = "" := by
  have h1 : lastIndexOf fileName '.' = -1 := lastIndexOfAux_of_not_mem '.' fileName.data 0 (-1) h
  unfold metadataName metadataExtension
  simp [h1]

theorem split_of_dot (fileName : String) (h : '.' ∈ fileName.data) :
    ∃ pre post : List Char, fileName.data = pre ++ '.' :: post ∧ '.' ∉ post ∧
      metadataName fileName = ⟨pre⟩ ∧ metadataExtension fileName = ⟨post⟩ := by
  obtain ⟨pre, post, h1, h2, h3⟩ := lastIndexOfAux_of_mem '.' fileName.data 0 (-1) h
  have h4 : lastIndexOf fileName '.' = (pre.length : Int) := by
    unfold lastIndexOf
    rw [h3]
    simp
  have h5 : lastIndexOf fileName '.' ≠ -1 := by
    rw [h4]
    omega
  refine ⟨pre, post, h1, h2, ?_, ?_⟩
  · unfold metadataName
    simp only [h5, ne_eq, not_false_eq_true, if_true]
    unfold substring
    rw [h4, h1]
    simp
  · unfold metadataExtension
    simp only [h5, ne_eq, not_false_eq_true, if_true]
    unfold substringFrom
    rw [h4, h1]
    have : ((pre.length : Int) + 1).toNat = pre.length + 1 := by omega
    rw [this]
    simp

/-- The `name` and `extension` the handler puts into the metadata object of the
reply, and the `name` and `file_type` it posts to the registry, are the two
pieces computed at lines 94-97 from the filename of the request's file entry. -/
theorem upload_metadata_fields (w : World) (request : Request) (part : FilePart)
    (fileName : String) (hpart : request.fileData = some part)
    (hname : part.filename = some fileName) :
    (∀ m, (upload w request).outcome.metadata = some m →
      m.name = metadataName fileName ∧ m.extension = metadataExtension fileName) ∧
    (∀ record, Call.addFile record ∈ (upload w request).trace →
      record.name = metadataName fileName ∧
      record.file_type = metadataExtension fileName) := by
  simp only [upload, tryBlock, authenticate, ensureBucket, putFile, createMetadata,
    insertMetadata, checkSuccessfulExecution, HandlerState.call, Run.trace]
  simp only [Request.fileData] at hpart
  repeat' split
  all_goals simp_all [catchBlock]

theorem split_relation (fileName name extension : String)
    (h1 : name = metadataName fileName) (h2 : extension = metadataExtension fileName) :
    ('.' ∉ fileName.data → name = fileName ∧ extension = "") ∧
    ('.' ∈ fileName.data →
      name ++ "." ++ extension = fileName ∧ '.' ∉ extension.data) := by
  subst h1 h2
  refine ⟨split_of_no_dot fileName, ?_⟩
  intro h
  obtain ⟨pre, post, h1, h2, h3, h4⟩ := split_of_dot fileName h
  rw [h3, h4]
  refine ⟨?_, h2⟩
  apply String.ext
  simp [h1]

/-- C2: the handler's metadata derivation splits the filename at its last `'.'`.
For every run on a file entry with filename `fileName`, the metadata object of the
reply and the record posted to the registry satisfy: when `fileName` holds no
`'.'`, the name is `fileName` and the extension is empty; when it holds a `'.'`,
name, `"."` and extension concatenate to `fileName` and the extension holds
no `'.'`. The upload of `report.pdf` yields name `report`, extension `pdf`, the
upload of `README` yields name `README` and the empty extension. -/
theorem metadata_split :
    (∀ (w : World) (request : Request) (part : FilePart) (fileName : String),
      request.fileData = some part → part.filename = some fileName →
      (∀ m, (upload w request).outcome.metadata = some m →
        ('.' ∉ fileName.data → m.name = fileName ∧ m.extension = "") ∧
        ('.' ∈ fileName.data →
          m.name ++ "." ++ m.extension = fileName ∧ '.' ∉ m.extension.data)) ∧
      (∀ record, Call.addFile record ∈ (upload w request).trace →
        ('.' ∉ fileName.data → record.name = fileName ∧ record.file_type = "") ∧
        ('.' ∈ fileName.data →
          record.name ++ "." ++ record.file_type = fileName ∧
          '.' ∉ record.file_type.data))) ∧
    (upload (happyWorld (.object (.string "abc123"))) (requestOf report)).outcome.metadata.map
        (fun m => nameAndExtension m.name m.extension) = some ("report", "pdf") ∧
    (upload (happyWorld (.object (.string "abc123"))) (requestOf readme)).outcome.metadata.map
        (fun m => nameAndExtension m.name m.extension) = some ("README", "") := by
  refine ⟨?_, by decide, by decide⟩
  intro w request part fileName hpart hname
  have h := upload_metadata_fields w request part fileName hpart hname
  constructor
  · intro m hm
    exact split_relation fileName m.name m.extension (h.1 m hm).1 (h.1 m hm).2
  · intro record hr
    exact split_relation fileName record.name record.file_type (h.2 record hr).1 (h.2 record hr).2

/-- The successful upload of `report.pdf`: the reply carries a metadata object, and
it and the posted record are cut at the last separator. -/
theorem metadata_split_witness :
    (upload (happyWorld (.object (.string "abc123"))) (requestOf report)).outcome.metadata.isSome
      = true ∧
    ((∀ m,
      (upload (happyWorld (.object (.string "abc123"))) (requestOf report)).outcome.metadata
          = some m →
        ('.' ∉ "report.pdf".data → m.name = "report.pdf" ∧ m.extension = "") ∧
        ('.' ∈ "report.pdf".data →
          m.name ++ "." ++ m.extension = "report.pdf" ∧ '.' ∉ m.extension.data)) ∧
    (∀ record,
      Call.addFile record ∈
          (upload (happyWorld (.object (.string "abc123"))) (requestOf report)).trace →
        ('.' ∉ "report.pdf".data → record.name = "report.pdf" ∧ record.file_type = "") ∧
        ('.' ∈ "report.pdf".data →
          record.name ++ "." ++ record.file_type = "report.pdf" ∧
          '.' ∉ record.file_type.data))) :=
  ⟨by decide,
    metadata_split.1 (happyWorld (.object (.string "abc123"))) (requestOf report) report
      "report.pdf" (by decide) (by decide)⟩

/-! ## The handler -/

/-- C3: when a request carries file data and its authentication stage fails (the
call throws or answers with a status other than 200), the run makes no
object-store call and no account-directory or registry call, and the reply has
`success = false`. -/
theorem auth_failure_stops_the_run (w : World) (request : Request)
    (hdata : request.fileData ≠ none) (hauth : authFails w request = true) :
    (∀ c ∈ (upload w request).trace, c.isObjectStore = false ∧ c.isRegistry = false) ∧
    (upload w request).outcome.success = false := by
  simp only [upload, tryBlock, authenticate, ensureBucket, putFile, createMetadata,
    insertMetadata, checkSuccessfulExecution, HandlerState.call, Run.trace]
  simp only [authFails, Request.fileData] at hauth hdata
  repeat' split
  all_goals simp_all [catchBlock, Call.isObjectStore, Call.isRegistry, Call.kind]

/-- The run of `photo.png` against an authentication service that rejects. -/
theorem auth_failure_stops_the_run_witness :
    (∀ c ∈ (upload rejectingWorld (requestOf photo)).trace,
      c.isObjectStore = false ∧ c.isRegistry = false) ∧
    (upload rejectingWorld (requestOf photo)).outcome.success = false :=
  auth_failure_stops_the_run rejectingWorld (requestOf photo) (by decide) (by decide)

/-- C4, on the code: no run of the handler ever calls the object store's delete,
and in the run where the write succeeds and the registry insert then throws, the
reply is a failure while the object `alice/photo.png` stays written. -/
theorem no_compensating_delete :
    (∀ (w : World) (request : Request), ∀ c ∈ (upload w request).trace,
      c.kind ≠ CallKind.removeObject) ∧
    (upload registryDownWorld (requestOf photo)).outcome.success = false ∧
    (upload registryDownWorld (requestOf photo)).trace.map Call.kind =
      [.authUser, .bucketExists, .makeBucket, .putObject, .getAccountIdByUsername, .addFile] ∧
    Call.putObject "alice" (some "photo.png") 2048 ∈
      (upload registryDownWorld (requestOf photo)).trace := by
  refine ⟨?_, by decide, by decide, by decide⟩
  intro w request
  simp only [upload, tryBlock, authenticate, ensureBucket, putFile, createMetadata,
    insertMetadata, checkSuccessfulExecution, HandlerState.call, Run.trace]
  repeat' split
  all_goals simp_all [catchBlock, Call.kind]

/-- C5, on the code. A request without a file entry is rejected before any
external call (the guard of line 27). A request with a zero-byte payload is
rejected only by the guard of line 63, after the authentication call and the
bucket calls: for a user without a bucket the bucket is created for the rejected
upload. A request without a filename is not checked at all and fails only after
the storage write was called with an undefined key. -/
theorem malformed_input_reaches_collaborators :
    requestWithoutFile.fileData = none ∧
    (upload newUserWorld requestWithoutFile).outcome.success = false ∧
    (upload newUserWorld requestWithoutFile).trace = [] ∧
    emptyFile.payloadEmpty = true ∧
    (upload newUserWorld (requestOf emptyFile)).outcome.success = false ∧
    (upload newUserWorld (requestOf emptyFile)).outcome.error =
      some "File size is missing or malformed" ∧
    (upload newUserWorld (requestOf emptyFile)).trace =
      [.authUser (some "Alice") (some "secret"), .bucketExists "alice", .makeBucket "alice"] ∧
    namelessFile.filename = none ∧
    (upload newUserWorld (requestOf namelessFile)).outcome.success = false ∧
    (upload newUserWorld (requestOf namelessFile)).trace =
      [.authUser (some "Alice") (some "secret"), .bucketExists "alice", .makeBucket "alice",
        .putObject "alice" none 5] := by
  decide

/-- What does hold for a malformed request in every world: the reply has
`success = false`; without a file entry no external call is made; no
account-directory or registry call is made; with an absent or empty payload no
storage write is made. -/
theorem malformed_input_fails (w : World) (request : Request)
    (h : request.fileData = none ∨
      ∃ part, request.fileData = some part ∧
        (part.payloadEmpty = true ∨ part.filename = none)) :
    (upload w request).outcome.success = false ∧
    (request.fileData = none → (upload w request).trace = []) ∧
    (∀ c ∈ (upload w request).trace, c.isRegistry = false) ∧
    (∀ part, request.fileData = some part → part.payloadEmpty = true →
      ∀ c ∈ (upload w request).trace, c.kind ≠ CallKind.putObject) := by
  simp only [upload, tryBlock, authenticate, ensureBucket, putFile, createMetadata,
    insertMetadata, checkSuccessfulExecution, HandlerState.call, Run.trace]
  simp only [Request.fileData, FilePart.payloadEmpty] at h ⊢
  repeat' split
  all_goals simp_all [catchBlock, Call.isRegistry, Call.kind]

/-- C10: the reply is never sent by the `else` branch of the final flag check, and
whenever a reply is sent by either branch of that check both flags are `true`. -/
theorem rollback_branch_unreachable (w : World) (request : Request) :
    (upload w request).outcome.site ≠ ReplySite.rollbackBranch ∧
    ((upload w request).outcome.site = ReplySite.completed ∨
        (upload w request).outcome.site = ReplySite.rollbackBranch →
      (upload w request).final.databaseInsertSuccess = true ∧
      (upload w request).final.uploadSuccess = true) := by
  simp only [upload, tryBlock, authenticate, ensureBucket, putFile, createMetadata,
    insertMetadata, checkSuccessfulExecution, HandlerState.call]
  repeat' split
  all_goals simp_all [catchBlock]

/-- The successful run reaches the final check, with both flags set. -/
theorem rollback_branch_unreachable_witness :
    (upload (happyWorld (.object (.string "abc123"))) (requestOf photo)).outcome.site =
      ReplySite.completed ∧
    (upload (happyWorld (.object (.string "abc123"))) (requestOf photo)).final.databaseInsertSuccess
      = true ∧
    (upload (happyWorld (.object (.string "abc123"))) (requestOf photo)).final.uploadSuccess
      = true :=
  ⟨by decide,
    (rollback_branch_unreachable (happyWorld (.object (.string "abc123"))) (requestOf photo)).2
      (Or.inl (by decide))⟩

/-- C6: a reply with `success = true` is sent only in a run in which the
`putObject` call on the request's file returned without error and the `addFile`
call returned with status 200. -/
theorem success_requires_write_and_insert (w : World) (request : Request)
    (h : (upload w request).outcome.success = true) :
    ∃ (part : FilePart) (buffer : Buffer) (fileName bucketName : String) (tag : JSValue)
        (record : FileRecord) (response : HttpResponse),
      request.fileData = some part ∧ part.data = some buffer ∧
      part.filename = some fileName ∧
      Call.putObject bucketName (some fileName) buffer.length ∈ (upload w request).trace ∧
      w.putObject bucketName (some fileName) buffer buffer.length = .ok tag ∧
      Call.addFile record ∈ (upload w request).trace ∧
      w.addFile record = .ok response ∧ response.status = 200 := by
  simp only [upload, tryBlock, authenticate, ensureBucket, putFile, createMetadata,
    insertMetadata, checkSuccessfulExecution, HandlerState.call, Run.trace] at h ⊢
  simp only [Request.fileData]
  repeat' split
  all_goals simp_all [catchBlock]

/-- The successful run of `photo.png`. -/
theorem success_requires_write_and_insert_witness :
    ∃ (part : FilePart) (buffer : Buffer) (fileName bucketName : String) (tag : JSValue)
        (record : FileRecord) (response : HttpResponse),
      (requestOf photo).fileData = some part ∧ part.data = some buffer ∧
      part.filename = some fileName ∧
      Call.putObject bucketName (some fileName) buffer.length ∈
        (upload (happyWorld (.object (.string "abc123"))) (requestOf photo)).trace ∧
      (happyWorld (.object (.string "abc123"))).putObject bucketName (some fileName) buffer
        buffer.length = .ok tag ∧
      Call.addFile record ∈
        (upload (happyWorld (.object (.string "abc123"))) (requestOf photo)).trace ∧
      (happyWorld (.object (.string "abc123"))).addFile record = .ok response ∧
      response.status = 200 :=
  success_requires_write_and_insert (happyWorld (.object (.string "abc123"))) (requestOf photo)
    (by decide)

/-- A failed write sets the flag `uploadSuccess` and still ends in a failure. -/
theorem write_error_fails :
    (upload storeDownWorld (requestOf photo)).final.uploadSuccess = true ∧
    (upload storeDownWorld (requestOf photo)).outcome.success = false ∧
    (upload storeDownWorld (requestOf photo)).outcome.site = ReplySite.caught := by
  decide

/-- C7 as stated fails in its last part: a request that carries file data but whose
`user` field does not parse, or parses to `null`, makes no authentication call. -/
theorem file_without_credentials_makes_no_auth_call :
    (requestWith .unparsable photo).fileData = some photo ∧
    authCalls (upload (happyWorld (.string "abc123")) (requestWith .unparsable photo)).trace = 0 ∧
    (requestWith .null photo).fileData = some photo ∧
    authCalls (upload (happyWorld (.string "abc123")) (requestWith .null photo)).trace = 0 := by
  decide

/-- C7, amended: the kinds of the external calls of a run form a prefix of
authenticate, `bucketExists`, `makeBucket`, `putObject`, account resolve, registry
insert, or of the same sequence without `makeBucket`; no kind occurs twice;
`makeBucket` is called only for a bucket that `bucketExists` reported absent; and a
request with file data whose `user` field parses to a value other than `null`
makes exactly one authentication call, the first call of the run. -/
theorem trace_order (w : World) (request : Request) :
    ((upload w request).trace.map Call.kind <+: sequenceWithCreate ∨
      (upload w request).trace.map Call.kind <+: sequenceWithoutCreate) ∧
    ((upload w request).trace.map Call.kind).Nodup ∧
    (∀ bucketName, Call.makeBucket bucketName ∈ (upload w request).trace →
      w.bucketExists bucketName = .ok false) ∧
    (∀ part username password, request.fileData = some part →
      request.credentials = some (username, password) →
      authCalls (upload w request).trace = 1 ∧
      (upload w request).trace.head? = some (Call.authUser username password)) := by
  simp only [upload, tryBlock, authenticate, ensureBucket, putFile, createMetadata,
    insertMetadata, checkSuccessfulExecution, HandlerState.call, Run.trace]
  simp only [Request.fileData, Request.credentials]
  repeat' split
  all_goals simp_all [catchBlock, sequenceWithCreate, sequenceWithoutCreate, Call.kind, authCalls]

/-- The run in which the bucket has to be created and the registry insert throws:
all six calls are made, in order, with one authentication call. -/
theorem trace_order_witness :
    (upload registryDownWorld (requestOf photo)).trace.map Call.kind = sequenceWithCreate ∧
    authCalls (upload registryDownWorld (requestOf photo)).trace = 1 ∧
    (upload registryDownWorld (requestOf photo)).trace.head? =
      some (Call.authUser (some "Alice") (some "secret")) :=
  ⟨by decide,
    (trace_order registryDownWorld (requestOf photo)).2.2.2 photo (some "Alice") (some "secret")
      (by decide) (by decide)⟩

theorem getEtag_ne (v tag : JSValue) (h : v.getEtag = .ok tag) : tag ≠ v := by
  cases v with
  | undefined => simp [JSValue.getEtag] at h
  | null => simp [JSValue.getEtag] at h
  | string s =>
    simp only [JSValue.getEtag, Except.ok.injEq] at h
    subst h
    simp
  | object e =>
    simp only [JSValue.getEtag, Except.ok.injEq] at h
    subst h
    intro heq
    have := congrArg sizeOf heq
    simp at this

/-- In every successful run the `etag` of the record posted to the registry is the
`etag` property of the value the reply carries in its own `etag` field: the
two fields never hold the same value. -/
theorem etag_fields_never_agree (w : World) (request : Request)
    (h : (upload w request).outcome.success = true) :
    ∃ v tag : JSValue, (upload w request).outcome.etag = some v ∧
      recordEtags (upload w request).trace = [tag] ∧ v.getEtag = .ok tag ∧ tag ≠ v := by
  simp only [upload, tryBlock, authenticate, ensureBucket, putFile, createMetadata,
    insertMetadata, checkSuccessfulExecution, HandlerState.call, Run.trace] at h ⊢
  repeat' split
  all_goals simp_all [catchBlock, recordEtags]
  all_goals exact getEtag_ne _ _ (by assumption)

/-- C9, on the code. When the store returns the string `abc123`, the reply carries
`abc123` but the record posted to the registry has `etag` `undefined`; when the
store returns an object whose `etag` property is `abc123`, the record carries
`abc123` but the reply carries the whole object. -/
theorem etag_fields_disagree :
    (upload (happyWorld (.string "abc123")) (requestOf photo)).outcome.success = true ∧
    (upload (happyWorld (.string "abc123")) (requestOf photo)).outcome.etag =
      some (.string "abc123") ∧
    recordEtags (upload (happyWorld (.string "abc123")) (requestOf photo)).trace =
      [.undefined] ∧
    (upload (happyWorld (.object (.string "abc123"))) (requestOf photo)).outcome.success = true ∧
    (upload (happyWorld (.object (.string "abc123"))) (requestOf photo)).outcome.etag =
      some (.object (.string "abc123")) ∧
    recordEtags (upload (happyWorld (.object (.string "abc123"))) (requestOf photo)).trace =
      [.string "abc123"] := by
  decide

end FileNest
